import Mathlib

/-!
Verification of the constraint-model layer of `brain2.py` (shift scheduling).

The file embeds, as Lean definitions, the parts of `brain2.py` that the claims
concern:

* `test_overlap` (brain2.py lines 36-64), including its `convert_to_minutes`
  helper (`t_str.split(':')` and `int(...)` are modelled by structural
  recursion over the character list; on well-formed `HH:MM` input the value
  agrees with Python, and on input where Python `int` would raise we return
  the junk value 0).
* `negated_bounded_span` (lines 85-111) and the two unconditional hard-clause
  blocks of `add_soft_sequence_constraint` (lines 114-182).  The two
  penalty blocks are guarded by `min_cost > 0` / `max_cost > 0` and are not
  emitted for the parameters of interest (`min_cost = max_cost = 0`);
  moreover each penalty clause contains a fresh free literal, so they never
  restrict the `works` variables.
* `add_soft_sum_constraint` (lines 185-239): its hard feasibility conditions
  on an assignment of `works` (the auxiliary integer variables `sum_var`,
  `delta` and `excess` are functionally determined by the sum, so a full
  assignment exists iff the determined values fit the declared variable
  bounds), and its objective contribution `Σ cost_variables[i] *
  cost_coefficients[i]`.
* The model assembled by `solve_shift_scheduling` (lines 242-1008): the
  decision cube `work[e, s, d]` and every hard constraint the code emits on
  it, collected in the predicate `Feasible` below.

Conventions for the model embedding:

* An instance of the scheduling request is a `SchedInstance`; a solution is a
  total function `work : ℕ → ℕ → ℕ → Bool` (employee, shift, day); only the
  entries with `e < num_employees + 1`, `s < num_shifts`, `d < num_days` are
  constrained, exactly as in the code.
* Python `sum(...)` over generators of 0/1 Boolean variables is modelled with
  `natSum` / `natSumFrom` / `listSum` (sums of `Bool.toNat` over
  `range(n)` / `range(a, b)` / a Python list).
* Auxiliary solver variables that are fixed by an equality constraint
  (`model.Add(aux == expr)`) are eliminated: a full feasible solution of the
  CP model exists for a given `work` cube iff the cube constraints hold and
  each determined auxiliary value lies inside the declared bounds of its
  `NewIntVar`.  Each such bound appears as a field of `FeasibleCore` when it
  can actually restrict the cube, with a comment giving the source line.
* Constraint families in which every clause contains a fresh penalty Boolean
  (`AddBoolOr([...., penalty_var])`, lines 658-667, 793-805, 824-829,
  848-854, 857-916, 919-973) never restrict the `work` cube (setting the
  penalty literal true satisfies the clause), so they contribute no field.
* `float`-valued inputs that the code combines with float arithmetic before
  comparing (`normtid`, `ansat_arbejdstid`) only enter the model through the
  derived integer bounds `int(37*normtid/ansat_arbejdstid[e][1])` (line 577)
  and the `month_end_hours` variable bounds (line 759); those derived
  integers are kept as instance parameters `max_workhour`, `month_end_lo`,
  `month_end_hi`.  Shift durations `funktioner_tider[s][2]` (compared with
  `< 6`, lines 445, 452) are modelled as exact rationals.
-/

/-- Sum of `f` over the Python range `range(n)`. -/
def natSum (n : ℕ) (f : ℕ → ℕ) : ℕ := ((List.range n).map f).sum

/-- Sum of `f` over the Python range `range(a, b)`. -/
def natSumFrom (a b : ℕ) (f : ℕ → ℕ) : ℕ := ((List.range (b - a)).map (fun i => f (a + i))).sum

/-- Sum of `f` over the members of a Python list. -/
def listSum (l : List ℕ) (f : ℕ → ℕ) : ℕ := (l.map f).sum

/-- Splitting a character list at every colon; model of Python
`t_str.split(':')` (brain2.py line 39). -/
def splitOnColon : List Char → List (List Char)
  | [] => [[]]
  | c :: rest =>
    match splitOnColon rest with
    | [] => [[c]]
    | g :: gs => if c = ':' then [] :: g :: gs else (c :: g) :: gs

/-- Accumulating decimal value of a digit string. -/
def digitsVal : List Char → ℕ → Option ℕ
  | [], acc => some acc
  | c :: rest, acc =>
    if c.isDigit then digitsVal rest (10 * acc + (c.toNat - 48)) else none

/-- Model of Python `int(s)` on the plain digit strings occurring in `HH:MM`
time fields; `none` where Python would raise `ValueError`. -/
def pyInt (cs : List Char) : Option ℕ :=
  match cs with
  | [] => none
  | _ => digitsVal cs 0

/-- `convert_to_minutes` of brain2.py lines 38-40: `60*int(hours)+int(minutes)`
for a `'HH:MM'` string.  Strings that do not split into exactly two parts, or
whose parts are not digit strings, make Python raise; they are mapped to the
junk value 0 (deterministically, so symmetry statements are unaffected). -/
def convert_to_minutes (t : String) : ℤ :=
  match splitOnColon t.toList with
  | [h, m] => 60 * (((pyInt h).getD 0 : ℤ)) + (((pyInt m).getD 0 : ℤ))
  | _ => 0

/-- The branch structure of `test_overlap` (brain2.py lines 47-64) on the
already-converted minute values. -/
def overlapM (a b c d : ℤ) : Bool :=
  if b < a then
    if d < c then true
    else decide (a < d) || decide (c < b)
  else if d < c then decide (c < b) || decide (a < d)
  else if a ≥ d ∨ c ≥ b then false
  else true

/-- `test_overlap` of brain2.py lines 36-64. -/
def test_overlap (t1_st t1_end t2_st t2_end : String) : Bool :=
  overlapM (convert_to_minutes t1_st) (convert_to_minutes t1_end)
    (convert_to_minutes t2_st) (convert_to_minutes t2_end)

/-- `negated_bounded_span` of brain2.py lines 85-111, evaluated at an
assignment: the list of literal values of the produced clause.  Indexing
`works[i]` is total in the source for the index ranges used by the caller;
`getD _ false` returns the same values there. -/
def negated_bounded_span (works : List Bool) (start length : ℕ) : List Bool :=
  (if 0 < start then [works.getD (start - 1) false] else [])
    ++ (List.range length).map (fun i => !(works.getD (start + i) false))
    ++ (if start + length < works.length then [works.getD (start + length) false] else [])

/-- Satisfaction of a `model.AddBoolOr(...)` clause at an assignment. -/
def boolOr (c : List Bool) : Prop := c.any id = true

/-- The clauses of brain2.py lines 146-149: for every `length` in
`range(1, hard_min)` and `start` in `range(len(works) - length + 1)` (i.e.
`start + length ≤ len(works)`), the span clause must hold. -/
def seqShortOk (works : List Bool) (hard_min : ℕ) : Prop :=
  ∀ length, 1 ≤ length → length < hard_min →
    ∀ start, start + length ≤ works.length →
      boolOr (negated_bounded_span works start length)

/-- The clauses of brain2.py lines 178-181: no `hard_max + 1` consecutive
true variables. -/
def seqLongOk (works : List Bool) (hard_max : ℕ) : Prop :=
  ∀ start, start < works.length - hard_max →
    boolOr ((List.range (hard_max + 1)).map (fun i => !(works.getD (start + i) false)))

/-- Feasibility of an assignment of `works` for the hard clauses emitted by
`add_soft_sequence_constraint` (brain2.py lines 114-182).  When
`min_cost = 0` and `max_cost = 0` the two penalty blocks (lines 152-176) are
skipped, so these are exactly the emitted constraints. -/
def add_soft_sequence_hard_ok (works : List Bool) (hard_min hard_max : ℕ) : Prop :=
  seqShortOk works hard_min ∧ seqLongOk works hard_max

/-- `(start, len)` delimits a maximal contiguous run of true values in
`works`: nonempty, inside the list, all true, and bounded on each side by the
list boundary or a false value. -/
def maximalRun (works : List Bool) (start len : ℕ) : Prop :=
  0 < len ∧ start + len ≤ works.length ∧
    (∀ i, start ≤ i → i < start + len → works.getD i false = true) ∧
    (start = 0 ∨ works.getD (start - 1) false = false) ∧
    (start + len = works.length ∨ works.getD (start + len) false = false)

/-- Number of true values in `works`; Python `sum(works)`. -/
def countTrue (l : List Bool) : ℕ := (l.map (fun b => b.toNat)).sum

/-- Feasibility of an assignment of `works` under the constraints emitted by
`add_soft_sum_constraint` (brain2.py lines 185-239).  `sum_var` (line 216) is
a `NewIntVar(hard_min, hard_max)` equal to the sum; in each penalty block the
`delta` and `excess` variables are fixed by equalities
(`delta == soft_min - sum_var`, `excess == max(delta, 0)`, and symmetrically),
so a full assignment exists iff the determined values fit the declared
variable bounds (`delta` in `[-len(works), len(works)]` resp. `[-7, 7]`,
`excess` in `[0, 7]`). -/
def add_soft_sum_feasible (works : List Bool)
    (hard_min soft_min min_cost soft_max hard_max max_cost : ℤ) : Prop :=
  (hard_min ≤ (countTrue works : ℤ) ∧ (countTrue works : ℤ) ≤ hard_max)
    ∧ (soft_min > hard_min ∧ min_cost > 0 →
        -(works.length : ℤ) ≤ soft_min - (countTrue works : ℤ)
          ∧ soft_min - (countTrue works : ℤ) ≤ (works.length : ℤ)
          ∧ max (soft_min - (countTrue works : ℤ)) 0 ≤ 7)
    ∧ (soft_max < hard_max ∧ max_cost > 0 →
        -7 ≤ (countTrue works : ℤ) - soft_max
          ∧ (countTrue works : ℤ) - soft_max ≤ 7
          ∧ max ((countTrue works : ℤ) - soft_max) 0 ≤ 7)

/-- Objective contribution `Σ cost_variables[i] * cost_coefficients[i]` of the
variables returned by `add_soft_sum_constraint` (brain2.py lines 214-239), at
an assignment of `works` (the `excess` variables are determined:
`max(soft_min - sum, 0)` with coefficient `min_cost`, and
`max(sum - soft_max, 0)` with coefficient `max_cost`, each present only under
the corresponding guard of lines 221 and 231). -/
def add_soft_sum_contribution (works : List Bool)
    (hard_min soft_min min_cost soft_max hard_max max_cost : ℤ) : ℤ :=
  (if soft_min > hard_min ∧ min_cost > 0 then
      min_cost * max (soft_min - (countTrue works : ℤ)) 0
    else 0)
    + (if soft_max < hard_max ∧ max_cost > 0 then
        max_cost * max ((countTrue works : ℤ) - soft_max) 0
      else 0)

/-- The data of one scheduling request, as read by `solve_shift_scheduling`
(brain2.py lines 242-337).  Names follow the source.  Employees are indices
`0, ..., num_employees - 1` (`num_employees = len(ansatte)`); the dummy
employee has index `num_employees` (the appended `'?'`, line 392).  Lists of
names are replaced by the corresponding index lists. -/
structure SchedInstance where
  /-- `len(ansatte)`: number of real employees. -/
  num_employees : ℕ
  /-- `len(funktioner_funktion_all)`: number of shift types; index 0 is the
  off/rest shift `Sove`. -/
  num_shifts : ℕ
  /-- `int(period_length)`: number of days. -/
  period_length : ℕ
  /-- `number_of_weeks` (= `num_weeks`, line 400). -/
  number_of_weeks : ℕ
  /-- first day of the current period. -/
  offset : ℕ
  /-- `funktioner_vagt_night_index_sleep`: the night-classified shifts. -/
  night_shifts : List ℕ
  /-- `allow_overlap`: shifts allowed to overlap another shift. -/
  allow_overlap : List ℕ
  /-- `allow_combination`: shifts allowed to combine with another shift. -/
  allow_combination : List ℕ
  /-- `funktioner_tider[str(s)]`: `(start, end, duration)`; start and end are
  `'HH:MM'` strings, the duration (compared with `< 6`) an exact rational. -/
  funktioner_tider : ℕ → String × String × ℚ
  /-- `int(funktioner_varighed[str(s)])`: integer duration in hours. -/
  funktioner_varighed : ℕ → ℕ
  /-- `cover_demands[d][j]` (the demand for shift `s` on day `d` is entry
  `j = s - 1`, line 511). -/
  cover_demands : ℕ → ℕ → ℕ
  /-- `fixed_assignments`: list of `[e, s, d]` triples. -/
  fixed_assignments : List (ℕ × ℕ × ℕ)
  /-- `requests`: list of `[e, s, d, w]` tuples. -/
  requests : List (ℕ × ℕ × ℕ × ℤ)
  /-- `skills`: list of `[e, s, k]` eligibility entries. -/
  skills : List (ℕ × ℕ × ℕ)
  /-- `funktioner_max_uge`: list of `(s, max)` weekly caps. -/
  funktioner_max_uge : List (ℕ × ℤ)
  /-- `desired_day_transistions`: `(first_shift, first_weekday, second_shift,
  second_weekday, cost)` tuples. -/
  desired_day_transistions : List (ℕ × ℕ × ℕ × ℕ × ℤ)
  /-- `desired_shift_transitions`: `(first_shift, first_day, next_shift,
  next_day, cost)` tuples. -/
  desired_shift_transitions : List (ℕ × ℕ × ℕ × ℕ × ℤ)
  /-- `equalfunctions`: shifts in the equalization group. -/
  equalfunctions : List ℕ
  /-- `equalfunctionsansatte`: `(s, employee index list)` subgroups (the
  source stores employee names and maps them with `ansatte.index`). -/
  equalfunctionsansatte : List (ℕ × List ℕ)
  /-- `ansatte_number_of_weekends_worked_8weeks[ansatte[e]][0]`: carried-in
  weekend count per employee (line 677). -/
  weekends_worked_8weeks : ℕ → ℕ
  /-- `int(37*normtid / ansat_arbejdstid[e][1])` (line 577). -/
  max_workhour : ℕ → ℕ
  /-- `int(normtid*0.01*ansat_arbejdstid[e][1]/37)`: lower bound of
  `month_end_hours[e]` (line 759). -/
  month_end_lo : ℕ → ℕ
  /-- `int(normtid*1.2*ansat_arbejdstid[e][1]/37)`: upper bound of
  `month_end_hours[e]` (line 759). -/
  month_end_hi : ℕ → ℕ

/-- `num_days = int(period_length)` (line 410). -/
def SchedInstance.num_days (inst : SchedInstance) : ℕ := inst.period_length

/-- `funktioner_liste = list(range(0, len(funktioner_funktion_all)))`
(line 256). -/
def SchedInstance.funktioner_liste (inst : SchedInstance) : List ℕ :=
  List.range inst.num_shifts

/-- `funktioner_no_overlap` (line 304): shifts not in `allow_overlap`. -/
def SchedInstance.funktioner_no_overlap (inst : SchedInstance) : List ℕ :=
  inst.funktioner_liste.filter (fun s => !(inst.allow_overlap.contains s))

/-- `funktioner_no_combination` (line 308): shifts not in
`allow_combination`. -/
def SchedInstance.funktioner_no_combination (inst : SchedInstance) : List ℕ :=
  inst.funktioner_liste.filter (fun s => !(inst.allow_combination.contains s))

/-- The shifts the loops of brain2.py lines 444-445 and 451-452 select: `s`
in `range(1, num_shifts)` with `float(funktioner_tider[str(s)][2]) < 6`. -/
def SchedInstance.shortShifts (inst : SchedInstance) : List ℕ :=
  (List.range inst.num_shifts).filter
    (fun s => decide (1 ≤ s) && decide ((inst.funktioner_tider s).2.2 < 6))

/-- `sum(work[e, s, d] for s in range(num_shifts))` (lines 437-438, 446,
461). -/
def totalShiftsDay (inst : SchedInstance) (work : ℕ → ℕ → ℕ → Bool) (e d : ℕ) : ℕ :=
  natSum inst.num_shifts (fun s => (work e s d).toNat)

/-- `sum(work[e, s, d] for s in funktioner_no_combination)` (line 439). -/
def noCombCount (inst : SchedInstance) (work : ℕ → ℕ → ℕ → Bool) (e d : ℕ) : ℕ :=
  listSum inst.funktioner_no_combination (fun s => (work e s d).toNat)

/-- `sum(work[e, s, d] for e in range(num_employees_dummy))` (line 512). -/
def coverageCount (inst : SchedInstance) (work : ℕ → ℕ → ℕ → Bool) (s d : ℕ) : ℕ :=
  natSum (inst.num_employees + 1) (fun e => (work e s d).toNat)

/-- `sum(work[e, s, x] for s in night_shifts for x in range(d, d+7))`
(line 533). -/
def nightWindowCount (inst : SchedInstance) (work : ℕ → ℕ → ℕ → Bool) (e d : ℕ) : ℕ :=
  listSum inst.night_shifts (fun s => natSum 7 (fun i => (work e s (d + i)).toNat))

/-- `sum(work[e, s, x] for x in range(w*7, w*7+6))` (line 560; note the
source sums six days, Monday through Saturday). -/
def weeklyCount (work : ℕ → ℕ → ℕ → Bool) (e s w : ℕ) : ℕ :=
  natSum 6 (fun i => (work e s (w * 7 + i)).toNat)

/-- `sum(work[e, s, d] * int(funktioner_varighed[str(s)]) for s in
range(1, num_shifts) for d in range(offset, num_days))` (lines 576 and
766). -/
def hoursWorked (inst : SchedInstance) (work : ℕ → ℕ → ℕ → Bool) (e : ℕ) : ℕ :=
  natSumFrom 1 inst.num_shifts (fun s =>
    inst.funktioner_varighed s *
      natSumFrom inst.offset inst.num_days (fun d => (work e s d).toNat))

/-- `num_dummy` (line 464): non-off assignments of the dummy employee in the
current period. -/
def dummyCount (inst : SchedInstance) (work : ℕ → ℕ → ℕ → Bool) : ℕ :=
  natSumFrom 1 inst.num_shifts (fun s =>
    natSumFrom inst.offset inst.num_days (fun d => (work inst.num_employees s d).toNat))

/-- `weekenddays_worked_int[e, w]` (line 649): weekend-day assignments of
week `w` plus Friday night-shift assignments. -/
def weekenddaysWorkedInt (inst : SchedInstance) (work : ℕ → ℕ → ℕ → Bool) (e w : ℕ) : ℕ :=
  natSumFrom 1 inst.num_shifts (fun s =>
    (work e s (w * 7 + 5)).toNat + (work e s (w * 7 + 6)).toNat)
    + listSum inst.night_shifts (fun f => (work e f (w * 7 + 4)).toNat)

/-- `sum(weekenddays_worked[e, w] for w in range(number_of_weeks))`
(lines 650-654, 672, 677): the Boolean `weekenddays_worked[e, w]` is forced
equal to `weekenddays_worked_int[e, w] > 0` by the reified pair of
constraints on lines 650-654, so the sum is determined by the cube. -/
def weekendWeeks (inst : SchedInstance) (work : ℕ → ℕ → ℕ → Bool) (e : ℕ) : ℕ :=
  natSum inst.number_of_weeks (fun w =>
    if 0 < weekenddaysWorkedInt inst work e w then 1 else 0)

/-- `sum(work[e, s, d] for s in night_shifts for d in range(offset,
num_days))` (lines 702 and 712). -/
def nightShiftTotal (inst : SchedInstance) (work : ℕ → ℕ → ℕ → Bool) (e : ℕ) : ℕ :=
  listSum inst.night_shifts (fun s =>
    natSumFrom inst.offset inst.num_days (fun d => (work e s d).toNat))

/-- `sum(work[e, s, d] for s in equalfunctions for d in range(offset,
num_days))` (line 705). -/
def equalFunctionTotal (inst : SchedInstance) (work : ℕ → ℕ → ℕ → Bool) (e : ℕ) : ℕ :=
  listSum inst.equalfunctions (fun s =>
    natSumFrom inst.offset inst.num_days (fun d => (work e s d).toNat))

/-- All hard constraints that `solve_shift_scheduling` (brain2.py lines
416-1008) places on the decision cube `work`, except the weekend-count bound
of lines 671-672 (split off into `Feasible` so the effect of that single
bound can be isolated).  Each field cites the emitting source lines.  A cube
extends to a full feasible solution of the CP model iff it satisfies
`Feasible`: every remaining constraint of the source either fixes an
auxiliary variable to a value that always fits its declared bounds
(lines 683-689, 714-723, 739-752), or is a disjunction containing a fresh
penalty literal (see the file header). -/
structure FeasibleCore (inst : SchedInstance) (work : ℕ → ℕ → ℕ → Bool) : Prop where
  /-- line 437: at most two shift types per real employee per day. -/
  max_two : ∀ e, e < inst.num_employees → ∀ d, d < inst.num_days →
    totalShiftsDay inst work e d ≤ 2
  /-- line 438: at least one shift type per real employee per day. -/
  min_one : ∀ e, e < inst.num_employees → ∀ d, d < inst.num_days →
    1 ≤ totalShiftsDay inst work e d
  /-- line 439: at most one non-combinable shift type per day. -/
  no_comb_le_one : ∀ e, e < inst.num_employees → ∀ d, d < inst.num_days →
    noCombCount inst work e d ≤ 1
  /-- lines 444-446: a shift with duration under 6 hours forces a second
  shift the same day. -/
  short_paired : ∀ e, e < inst.num_employees → ∀ d, d < inst.num_days →
    ∀ s ∈ inst.shortShifts, work e s d = true → 1 < totalShiftsDay inst work e d
  /-- lines 451-456: a shift with duration under 6 hours excludes the off
  shift the same day. -/
  short_not_off : ∀ s ∈ inst.shortShifts, ∀ d, d < inst.num_days →
    ∀ e, e < inst.num_employees →
      ¬(work e s d = true ∧ work e 0 d = true)
  /-- lines 460-461: the dummy employee has at least one shift per day. -/
  dummy_min : ∀ d, d < inst.num_days → 1 ≤ totalShiftsDay inst work inst.num_employees d
  /-- lines 464-466: the `num_dummies` variable bound
  `NewIntVar(0, num_days*num_shifts)`. -/
  dummy_bound : dummyCount inst work ≤ inst.num_days * inst.num_shifts
  /-- lines 472-476: two non-overlap-allowed shifts with overlapping time
  windows exclude each other.  `combinations(funktioner_no_overlap, 2)`
  enumerates exactly the pairs `s1 < s2` of the increasing filtered list. -/
  overlap_excl : ∀ s1 ∈ inst.funktioner_no_overlap, ∀ s2 ∈ inst.funktioner_no_overlap,
    s1 < s2 →
      test_overlap (inst.funktioner_tider s1).1 (inst.funktioner_tider s1).2.1
        (inst.funktioner_tider s2).1 (inst.funktioner_tider s2).2.1 = true →
      ∀ d, d < inst.num_days → ∀ e, e < inst.num_employees →
        ¬(work e s1 d = true ∧ work e s2 d = true)
  /-- lines 479-482: an overlap-allowed shift excludes the off shift the same
  day. -/
  overlap_not_off : ∀ s ∈ inst.allow_overlap, ∀ d, d < inst.num_days →
    ∀ e, e < inst.num_employees →
      ¬(work e s d = true ∧ work e 0 d = true)
  /-- lines 487-490: fixed assignments with `d > offset - 1` are forced. -/
  fixed_forced : ∀ t ∈ inst.fixed_assignments,
    ((t.2.2 : ℤ) > (inst.offset : ℤ) - 1) → work t.1 t.2.1 t.2.2 = true
  /-- lines 494-499: zero-weight requests with `d > offset - 1` are forced. -/
  requests_forced : ∀ r ∈ inst.requests,
    ((r.2.2.1 : ℤ) > (inst.offset : ℤ) - 1) → r.2.2.2 = 0 →
      work r.1 r.2.1 r.2.2.1 = true
  /-- lines 508-512: exact coverage, dummy included, for every non-zero
  shift. -/
  coverage : ∀ d, d < inst.num_days → ∀ s, s < inst.num_shifts → 1 ≤ s →
    coverageCount inst work s d = inst.cover_demands d (s - 1)
  /-- lines 515-525: rest after a night shift. -/
  rest_after_night : ∀ ns ∈ inst.night_shifts, ∀ e, e < inst.num_employees →
    ∀ d, d < inst.num_days - 1 → work e ns d = true → work e 0 (d + 1) = true
  /-- lines 531-533: at most one night shift in the 7-day window starting at
  `d`, for `d` in `range(offset, num_days - 7)`. -/
  night_window : ∀ e, e < inst.num_employees → ∀ d, d < inst.num_days - 7 →
    inst.offset ≤ d → nightWindowCount inst work e d ≤ 1
  /-- lines 557-569: the `shifts_worked` (`NewIntVar(0, 7)`) and
  `excess_shifts` (`NewIntVar(-7, 7)`, equal to `max_shifts -
  shifts_worked`) variable bounds for every weekly cap entry. -/
  max_uge_bounds : ∀ p ∈ inst.funktioner_max_uge, ∀ e, e < inst.num_employees →
    ∀ w, w < inst.number_of_weeks →
      weeklyCount work e p.1 w ≤ 7
        ∧ -7 ≤ p.2 - (weeklyCount work e p.1 w : ℤ)
        ∧ p.2 - (weeklyCount work e p.1 w : ℤ) ≤ 7
  /-- lines 575-584: `hours_worked = NewIntVar(0, max_workhour)` equals the
  worked hours, and `excess_workhours = NewIntVar(0, num_days*24)` equals
  `max_workhour - hours_worked`. -/
  workhours_bounds : ∀ e, e < inst.num_employees →
    hoursWorked inst work e ≤ inst.max_workhour e
      ∧ inst.max_workhour e - hoursWorked inst work e ≤ inst.num_days * 24
  /-- lines 646-649: `weekenddays_worked_int[e, w] =
  NewIntVar(0, number_of_weeks*3)`. -/
  weekend_int_bound : ∀ e, e < inst.num_employees → ∀ w, w < inst.number_of_weeks →
    weekenddaysWorkedInt inst work e w ≤ inst.number_of_weeks * 3
  /-- lines 676-677: `total_weekends[e] = NewIntVar(0, number_of_weeks+8)`
  equals carried-in weekends plus this period's weekend weeks. -/
  total_weekends_bound : ∀ e, e < inst.num_employees →
    inst.weekends_worked_8weeks e + weekendWeeks inst work e ≤ inst.number_of_weeks + 8
  /-- lines 701-702 and 711-712: `sum_of_shifts[e]` and
  `sum_of_shifts_night[e]` are `NewIntVar(0, num_days)`. -/
  night_total_bound : ∀ e, e < inst.num_employees →
    nightShiftTotal inst work e ≤ inst.num_days
  /-- lines 704-705: `sum_of_equalfunctions[e] = NewIntVar(0, num_days)`. -/
  equal_total_bound : ∀ e, e < inst.num_employees →
    equalFunctionTotal inst work e ≤ inst.num_days
  /-- lines 758-767: `month_end_hours[e]` lies in its declared bounds and
  equals the worked hours. -/
  month_end_bounds : ∀ e, e < inst.num_employees →
    inst.month_end_lo e ≤ hoursWorked inst work e
      ∧ hoursWorked inst work e ≤ inst.month_end_hi e
  /-- lines 772-778: a `skills` entry with flag 0 forbids the assignment on
  every day of `range(offset, num_days)` that is not a fixed assignment. -/
  skills_blocked : ∀ t ∈ inst.skills, t.2.2 = 0 → ∀ d, d < inst.num_days →
    inst.offset ≤ d → ¬((t.1, t.2.1, d) ∈ inst.fixed_assignments) →
      work t.1 t.2.1 d = false
  /-- lines 812-822: day transitions with cost 0 are hard implications. -/
  day_transitions_hard : ∀ q ∈ inst.desired_day_transistions, q.2.2.2.2 = 0 →
    ∀ e, e < inst.num_employees → ∀ w, w < inst.number_of_weeks →
      work e q.1 (7 * w + q.2.1) = true → work e q.2.2.1 (7 * w + q.2.2.2.1) = true
  /-- lines 833-843: shift transitions with cost 0 are hard implications. -/
  shift_transitions_hard : ∀ q ∈ inst.desired_shift_transitions, q.2.2.2.2 = 0 →
    ∀ e, e < inst.num_employees → ∀ d, d < inst.num_days - q.2.2.2.1 →
      work e q.1 (d + q.2.1) = true → work e q.2.2.1 (d + q.2.2.2.1) = true

/-- Full feasibility: `FeasibleCore` together with the bound of brain2.py
lines 671-672, where `weekends_in_month[e] = NewIntVar(0, 2)` is constrained
equal to the number of weekend-worked weeks minus 1. -/
structure Feasible (inst : SchedInstance) (work : ℕ → ℕ → ℕ → Bool)
    extends FeasibleCore inst work : Prop where
  /-- lines 671-672: `0 ≤ (Σ_w weekenddays_worked[e, w]) - 1 ≤ 2`. -/
  weekends_in_month : ∀ e, e < inst.num_employees →
    0 ≤ (weekendWeeks inst work e : ℤ) - 1 ∧ (weekendWeeks inst work e : ℤ) - 1 ≤ 2

/-- A concrete request used to witness the invariant theorems: one real
employee (plus dummy), shifts `0 = off`, `1 = day 06:00-16:00`,
`2 = night 23:00-07:00` (night-classified), 14 days / 2 weeks, offset 0,
demand of one night shift on days 5 and 13, and a skill flag making
employee 0 ineligible for shift 1. -/
def instWit : SchedInstance where
  num_employees := 1
  num_shifts := 3
  period_length := 14
  number_of_weeks := 2
  offset := 0
  night_shifts := [2]
  allow_overlap := []
  allow_combination := []
  funktioner_tider := fun s =>
    if s = 1 then ("06:00", "16:00", (8 : ℚ))
    else if s = 2 then ("23:00", "07:00", (8 : ℚ))
    else ("00:00", "00:00", (0 : ℚ))
  funktioner_varighed := fun s => if s = 0 then 0 else 8
  cover_demands := fun d j => if j = 1 ∧ (d = 5 ∨ d = 13) then 1 else 0
  fixed_assignments := []
  requests := []
  skills := [(0, 1, 0)]
  funktioner_max_uge := []
  desired_day_transistions := []
  desired_shift_transitions := []
  equalfunctions := []
  equalfunctionsansatte := []
  weekends_worked_8weeks := fun _ => 0
  max_workhour := fun _ => 100
  month_end_lo := fun _ => 0
  month_end_hi := fun _ => 200

/-- A solution of `instWit`: employee 0 works the night shift on days 5 and
13 and is off otherwise; the dummy employee is off every day. -/
def workWit : ℕ → ℕ → ℕ → Bool := fun e s d =>
  if e = 0 then (if d = 5 ∨ d = 13 then s == 2 else s == 0)
  else if e = 1 then s == 0
  else false

theorem instWit_feasible : Feasible instWit workWit :=
  ⟨by constructor <;> decide, by decide⟩

/-- A concrete request for claim C2: shifts `0 = off`,
`1 = day 08:00-16:00` (non-combinable), `2 = evening 16:00-23:00`
(combination-allowed), 7 days / 1 week, demand of one day shift every day and
one evening shift on day 0. -/
def instC2 : SchedInstance where
  num_employees := 1
  num_shifts := 3
  period_length := 7
  number_of_weeks := 1
  offset := 0
  night_shifts := []
  allow_overlap := []
  allow_combination := [2]
  funktioner_tider := fun s =>
    if s = 1 then ("08:00", "16:00", (8 : ℚ))
    else if s = 2 then ("16:00", "23:00", (7 : ℚ))
    else ("00:00", "00:00", (0 : ℚ))
  funktioner_varighed := fun s => if s = 1 then 8 else if s = 2 then 7 else 0
  cover_demands := fun d j => if j = 0 then 1 else if j = 1 ∧ d = 0 then 1 else 0
  fixed_assignments := []
  requests := []
  skills := []
  funktioner_max_uge := []
  desired_day_transistions := []
  desired_shift_transitions := []
  equalfunctions := []
  equalfunctionsansatte := []
  weekends_worked_8weeks := fun _ => 0
  max_workhour := fun _ => 100
  month_end_lo := fun _ => 0
  month_end_hi := fun _ => 200

/-- A solution of `instC2`: employee 0 works the non-combinable day shift
together with the combination-allowed evening shift on day 0, and the day
shift alone on the other days. -/
def workC2 : ℕ → ℕ → ℕ → Bool := fun e s d =>
  if e = 0 then (if d = 0 then s == 1 || s == 2 else s == 1)
  else if e = 1 then s == 0
  else false

theorem instC2_feasible : Feasible instC2 workC2 :=
  ⟨by constructor <;> decide, by decide⟩

/-- A concrete request for claim C4: like `instWit` (night shift 2,
14 days / 2 weeks, offset 0) but with night demand on days 7 and 13 -- two
nights inside the final 7-day window `[7, 13]`, whose start day `7` is not
covered by the loop `range(offset, num_days - 7)`. -/
def instC4 : SchedInstance where
  num_employees := 1
  num_shifts := 3
  period_length := 14
  number_of_weeks := 2
  offset := 0
  night_shifts := [2]
  allow_overlap := []
  allow_combination := []
  funktioner_tider := fun s =>
    if s = 1 then ("06:00", "16:00", (8 : ℚ))
    else if s = 2 then ("23:00", "07:00", (8 : ℚ))
    else ("00:00", "00:00", (0 : ℚ))
  funktioner_varighed := fun s => if s = 0 then 0 else 8
  cover_demands := fun d j => if j = 1 ∧ (d = 7 ∨ d = 13) then 1 else 0
  fixed_assignments := []
  requests := []
  skills := [(0, 1, 0)]
  funktioner_max_uge := []
  desired_day_transistions := []
  desired_shift_transitions := []
  equalfunctions := []
  equalfunctionsansatte := []
  weekends_worked_8weeks := fun _ => 0
  max_workhour := fun _ => 100
  month_end_lo := fun _ => 0
  month_end_hi := fun _ => 200

/-- A solution of `instC4`: employee 0 works the night shift on days 7 and
13 (both inside the 7-day window starting at day 7) and is off otherwise. -/
def workC4 : ℕ → ℕ → ℕ → Bool := fun e s d =>
  if e = 0 then (if d = 7 ∨ d = 13 then s == 2 else s == 0)
  else if e = 1 then s == 0
  else false

theorem instC4_feasible : Feasible instC4 workC4 :=
  ⟨by constructor <;> decide, by decide⟩

/-- A concrete request for claim C5: shift 1 (day 08:00-16:00) is
overlap-allowed, shift 2 (day 09:00-17:00) is not; their time windows
overlap; both may combine.  7 days / 1 week, demand of one shift-1 every day
and one shift-2 on day 0. -/
def instC5 : SchedInstance where
  num_employees := 1
  num_shifts := 3
  period_length := 7
  number_of_weeks := 1
  offset := 0
  night_shifts := []
  allow_overlap := [1]
  allow_combination := [1, 2]
  funktioner_tider := fun s =>
    if s = 1 then ("08:00", "16:00", (8 : ℚ))
    else if s = 2 then ("09:00", "17:00", (8 : ℚ))
    else ("00:00", "00:00", (0 : ℚ))
  funktioner_varighed := fun s => if s = 0 then 0 else 8
  cover_demands := fun d j => if j = 0 then 1 else if j = 1 ∧ d = 0 then 1 else 0
  fixed_assignments := []
  requests := []
  skills := []
  funktioner_max_uge := []
  desired_day_transistions := []
  desired_shift_transitions := []
  equalfunctions := []
  equalfunctionsansatte := []
  weekends_worked_8weeks := fun _ => 0
  max_workhour := fun _ => 100
  month_end_lo := fun _ => 0
  month_end_hi := fun _ => 200

/-- A solution of `instC5`: employee 0 works the two overlapping shifts 1
and 2 on day 0 (only shift 1 of which is overlap-allowed), and shift 1 alone
otherwise. -/
def workC5 : ℕ → ℕ → ℕ → Bool := fun e s d =>
  if e = 0 then (if d = 0 then s == 1 || s == 2 else s == 1)
  else if e = 1 then s == 0
  else false

theorem instC5_feasible : Feasible instC5 workC5 :=
  ⟨by constructor <;> decide, by decide⟩

/-- A concrete request for claim C6: offset 7 (week 0 is carried-over
history), 14 days / 2 weeks, shifts `1 = day 08:00-16:00` and
`2 = evening 16:00-23:00`, a skills entry `(0, 1, 0)` making employee 0
ineligible for shift 1, no fixed assignments, demand of one shift-1 on day 0
and one shift-2 on day 13. -/
def instC6 : SchedInstance where
  num_employees := 1
  num_shifts := 3
  period_length := 14
  number_of_weeks := 2
  offset := 7
  night_shifts := []
  allow_overlap := []
  allow_combination := []
  funktioner_tider := fun s =>
    if s = 1 then ("08:00", "16:00", (8 : ℚ))
    else if s = 2 then ("16:00", "23:00", (7 : ℚ))
    else ("00:00", "00:00", (0 : ℚ))
  funktioner_varighed := fun s => if s = 1 then 8 else if s = 2 then 7 else 0
  cover_demands := fun d j =>
    if j = 0 ∧ d = 0 then 1 else if j = 1 ∧ d = 13 then 1 else 0
  fixed_assignments := []
  requests := []
  skills := [(0, 1, 0)]
  funktioner_max_uge := []
  desired_day_transistions := []
  desired_shift_transitions := []
  equalfunctions := []
  equalfunctionsansatte := []
  weekends_worked_8weeks := fun _ => 0
  max_workhour := fun _ => 100
  month_end_lo := fun _ => 0
  month_end_hi := fun _ => 200

/-- A solution of `instC6`: employee 0 works the skill-blocked shift 1 on
day 0 (which lies before the offset), the evening shift on day 13, and is
off otherwise. -/
def workC6 : ℕ → ℕ → ℕ → Bool := fun e s d =>
  if e = 0 then (if d = 0 then s == 1 else if d = 13 then s == 2 else s == 0)
  else if e = 1 then s == 0
  else false

theorem instC6_feasible : Feasible instC6 workC6 :=
  ⟨by constructor <;> decide, by decide⟩

/-- A concrete request for claim C9: a full month, 28 days / 4 weeks, one
working shift `1 = day 08:00-16:00`, demand of one shift-1 on each of the
four Saturdays. -/
def instC9 : SchedInstance where
  num_employees := 1
  num_shifts := 2
  period_length := 28
  number_of_weeks := 4
  offset := 0
  night_shifts := []
  allow_overlap := []
  allow_combination := []
  funktioner_tider := fun s =>
    if s = 1 then ("08:00", "16:00", (8 : ℚ)) else ("00:00", "00:00", (0 : ℚ))
  funktioner_varighed := fun s => if s = 1 then 8 else 0
  cover_demands := fun d j =>
    if j = 0 ∧ (d = 5 ∨ d = 12 ∨ d = 19 ∨ d = 26) then 1 else 0
  fixed_assignments := []
  requests := []
  skills := []
  funktioner_max_uge := []
  desired_day_transistions := []
  desired_shift_transitions := []
  equalfunctions := []
  equalfunctionsansatte := []
  weekends_worked_8weeks := fun _ => 0
  max_workhour := fun _ => 100
  month_end_lo := fun _ => 0
  month_end_hi := fun _ => 200

/-- A candidate solution of `instC9`: employee 0 works every Saturday (a
weekend in each of the four weeks of the rolling 4-week window) and is off
otherwise. -/
def workC9 : ℕ → ℕ → ℕ → Bool := fun e s d =>
  if e = 0 then (if d = 5 ∨ d = 12 ∨ d = 19 ∨ d = 26 then s == 1 else s == 0)
  else if e = 1 then s == 0
  else false

theorem instC9_core : FeasibleCore instC9 workC9 := by
  constructor <;> decide

theorem instC9_weekends : weekendWeeks instC9 workC9 0 = 4 := by decide

/-- C1: in every feasible solution of the assembled model, for every day
`d < num_days` and every non-zero shift `s`, the number of employees
assigned to `s` on `d` -- dummy employee included -- equals the demanded
headcount `cover_demands[d][s-1]` (the spec entity `CoverDemand[d][s]`)
exactly (brain2.py lines 507-512). -/
theorem spec_c1_exact_coverage (inst : SchedInstance) (work : ℕ → ℕ → ℕ → Bool)
    (hf : Feasible inst work) :
    ∀ d, d < inst.num_days → ∀ s, s < inst.num_shifts → 1 ≤ s →
      coverageCount inst work s d = inst.cover_demands d (s - 1) :=
  hf.coverage

/-- Witness for C1 at the concrete feasible pair `(instWit, workWit)`,
day 5, shift 2. -/
theorem spec_c1_exact_coverage_witness :
    Feasible instWit workWit ∧
      coverageCount instWit workWit 2 5 = instWit.cover_demands 5 1 :=
  ⟨instWit_feasible,
    spec_c1_exact_coverage instWit workWit instWit_feasible 5 (by decide) 2 (by decide)
      (by decide)⟩

/-- C2, counterexample: in the feasible solution `workC2` of `instC2`,
employee 0 is assigned the non-combinable shift 1 on day 0 and yet not
exactly one shift type (it also holds the combination-allowed shift 2), so
the claimed "if any assigned shift type is non-combinable then exactly 1
shift type is assigned" fails: brain2.py line 439 only caps the number of
non-combinable shifts at one. -/
theorem spec_c2_counterexample :
    Feasible instC2 workC2 ∧ workC2 0 1 0 = true
      ∧ 1 ∈ instC2.funktioner_no_combination
      ∧ totalShiftsDay instC2 workC2 0 0 ≠ 1 :=
  ⟨instC2_feasible, by decide, by decide, by decide⟩

/-- C2 as amended: in every feasible solution, every real employee has
between 1 and 2 assigned shift types per day, and at most one of the
assigned shift types is non-combinable (brain2.py lines 434-439). -/
theorem spec_c2_daily_cardinality (inst : SchedInstance) (work : ℕ → ℕ → ℕ → Bool)
    (hf : Feasible inst work) :
    ∀ e, e < inst.num_employees → ∀ d, d < inst.num_days →
      1 ≤ totalShiftsDay inst work e d ∧ totalShiftsDay inst work e d ≤ 2
        ∧ noCombCount inst work e d ≤ 1 :=
  fun e he d hd =>
    ⟨hf.min_one e he d hd, hf.max_two e he d hd, hf.no_comb_le_one e he d hd⟩

/-- Witness for the amended C2 at `(instWit, workWit)`, employee 0, day 0. -/
theorem spec_c2_daily_cardinality_witness :
    Feasible instWit workWit ∧
      (1 ≤ totalShiftsDay instWit workWit 0 0 ∧ totalShiftsDay instWit workWit 0 0 ≤ 2
        ∧ noCombCount instWit workWit 0 0 ≤ 1) :=
  ⟨instWit_feasible,
    spec_c2_daily_cardinality instWit workWit instWit_feasible 0 (by decide) 0 (by decide)⟩

/-- C3: in every feasible solution, a real employee who works a
night-classified shift on day `d < num_days - 1` holds the off shift on day
`d + 1` (brain2.py lines 514-525). -/
theorem spec_c3_rest_after_night (inst : SchedInstance) (work : ℕ → ℕ → ℕ → Bool)
    (hf : Feasible inst work) :
    ∀ ns ∈ inst.night_shifts, ∀ e, e < inst.num_employees →
      ∀ d, d < inst.num_days - 1 → work e ns d = true → work e 0 (d + 1) = true :=
  hf.rest_after_night

/-- Witness for C3 at `(instWit, workWit)`: employee 0 works night shift 2
on day 5 and is off on day 6. -/
theorem spec_c3_rest_after_night_witness :
    Feasible instWit workWit ∧ workWit 0 2 5 = true ∧ workWit 0 0 6 = true :=
  ⟨instWit_feasible, by decide,
    spec_c3_rest_after_night instWit workWit instWit_feasible 2 (by decide) 0 (by decide) 5
      (by decide) (by decide)⟩

/-- C4, counterexample: in the feasible solution `workC4` of `instC4`
(14 days, offset 0), the 7-day window starting at day 7 lies inside the
horizon (`offset ≤ 7` and `7 + 6 ≤ num_days - 1`) yet contains two night
assignments of employee 0: the loop of brain2.py lines 530-533 only runs
over `range(offset, num_days - 7)` and misses the final window start. -/
theorem spec_c4_counterexample :
    Feasible instC4 workC4 ∧ instC4.offset ≤ 7 ∧ 7 + 6 ≤ instC4.num_days - 1
      ∧ 1 < nightWindowCount instC4 workC4 0 7 :=
  ⟨instC4_feasible, by decide, by decide, by decide⟩

/-- C4 as amended: in every feasible solution, for every real employee and
every 7-day window whose start day `d` satisfies `offset ≤ d` and
`d < num_days - 7` (one day short of all windows inside the horizon), at
most one night-classified shift is assigned in the window (brain2.py
lines 530-533). -/
theorem spec_c4_night_window (inst : SchedInstance) (work : ℕ → ℕ → ℕ → Bool)
    (hf : Feasible inst work) :
    ∀ e, e < inst.num_employees → ∀ d, d < inst.num_days - 7 →
      inst.offset ≤ d → nightWindowCount inst work e d ≤ 1 :=
  hf.night_window

/-- Witness for the amended C4 at `(instWit, workWit)`, employee 0, window
start 0. -/
theorem spec_c4_night_window_witness :
    Feasible instWit workWit ∧ nightWindowCount instWit workWit 0 0 ≤ 1 :=
  ⟨instWit_feasible,
    spec_c4_night_window instWit workWit instWit_feasible 0 (by decide) 0 (by decide)
      (by decide)⟩

/-- C5, counterexample: in the feasible solution `workC5` of `instC5`,
employee 0 works shifts 1 and 2 on day 0, their time windows overlap, and
they are not both overlap-allowed (only shift 1 is): the claimed "no two
overlapping shifts unless both are flagged overlap-allowed" fails, because
brain2.py lines 470-476 forbid an overlapping pair only when both shifts
are non-overlap-allowed (`combinations(funktioner_no_overlap, 2)`). -/
theorem spec_c5_counterexample :
    Feasible instC5 workC5 ∧ workC5 0 1 0 = true ∧ workC5 0 2 0 = true
      ∧ test_overlap (instC5.funktioner_tider 1).1 (instC5.funktioner_tider 1).2.1
          (instC5.funktioner_tider 2).1 (instC5.funktioner_tider 2).2.1 = true
      ∧ ¬(1 ∈ instC5.allow_overlap ∧ 2 ∈ instC5.allow_overlap) :=
  ⟨instC5_feasible, by decide, by decide, by decide, by decide⟩

/-- C5 as amended: in every feasible solution, no real employee is assigned
two shift types on the same day that are both non-overlap-allowed and whose
time windows overlap; and an overlap-allowed shift type assigned on a day
excludes the off shift that day (brain2.py lines 470-482). -/
theorem spec_c5_overlap (inst : SchedInstance) (work : ℕ → ℕ → ℕ → Bool)
    (hf : Feasible inst work) :
    ∀ e, e < inst.num_employees → ∀ d, d < inst.num_days →
      (∀ s1 ∈ inst.funktioner_no_overlap, ∀ s2 ∈ inst.funktioner_no_overlap, s1 < s2 →
        test_overlap (inst.funktioner_tider s1).1 (inst.funktioner_tider s1).2.1
            (inst.funktioner_tider s2).1 (inst.funktioner_tider s2).2.1 = true →
          ¬(work e s1 d = true ∧ work e s2 d = true))
        ∧ (∀ s ∈ inst.allow_overlap, ¬(work e s d = true ∧ work e 0 d = true)) :=
  fun e he d hd =>
    ⟨fun s1 h1 s2 h2 hlt hov => hf.overlap_excl s1 h1 s2 h2 hlt hov d hd e he,
      fun s hs => hf.overlap_not_off s hs d hd e he⟩

/-- Witness for the amended C5 at `(instWit, workWit)`: the non-overlap-
allowed shifts 0 and 2 of `instWit` have overlapping windows (shift 2 wraps
midnight), so they are not both assigned to employee 0 on day 0. -/
theorem spec_c5_overlap_witness :
    Feasible instWit workWit ∧ ¬(workWit 0 0 0 = true ∧ workWit 0 2 0 = true) :=
  ⟨instWit_feasible,
    (spec_c5_overlap instWit workWit instWit_feasible 0 (by decide) 0 (by decide)).1 0
      (by decide) 2 (by decide) (by decide) (by decide)⟩

/-- C6, counterexample: in the feasible solution `workC6` of `instC6`
(offset 7), employee 0 works shift 1 on day 0 although the skills entry
`(0, 1, 0)` marks it ineligible and `(0, 1, 0)` is not a fixed assignment:
brain2.py lines 772-778 only forbid the assignment on days of
`range(offset, num_days)`, not on every day. -/
theorem spec_c6_counterexample :
    Feasible instC6 workC6 ∧ (0, 1, 0) ∈ instC6.skills
      ∧ ¬((0, 1, 0) ∈ instC6.fixed_assignments) ∧ workC6 0 1 0 = true :=
  ⟨instC6_feasible, by decide, by decide, by decide⟩

/-- C6 as amended: in every feasible solution, for every skills entry
`(e, s, 0)` and every day `d` with `offset ≤ d < num_days`, the assignment
`work[e, s, d]` is false unless `(e, s, d)` is a fixed assignment
(brain2.py lines 772-778). -/
theorem spec_c6_skill_block (inst : SchedInstance) (work : ℕ → ℕ → ℕ → Bool)
    (hf : Feasible inst work) :
    ∀ t ∈ inst.skills, t.2.2 = 0 → ∀ d, d < inst.num_days → inst.offset ≤ d →
      ¬((t.1, t.2.1, d) ∈ inst.fixed_assignments) → work t.1 t.2.1 d = false :=
  hf.skills_blocked

/-- Witness for the amended C6 at `(instWit, workWit)`: the entry
`(0, 1, 0)` blocks shift 1 for employee 0 on day 7. -/
theorem spec_c6_skill_block_witness :
    Feasible instWit workWit ∧ workWit 0 1 7 = false :=
  ⟨instWit_feasible,
    spec_c6_skill_block instWit workWit instWit_feasible (0, 1, 0) (by decide) (by decide) 7
      (by decide) (by decide) (by decide)⟩

/-- C9, counterexample: the assignment `workC9` of `instC9` (a 4-week
horizon, so the whole horizon is the single rolling 4-week window) works a
weekend in each of the 4 weeks, satisfies every constraint of the model
except the weekend-count bound of brain2.py lines 670-675, and is
infeasible: an excess over 2 worked weekends does not merely incur a soft
penalty -- `weekends_in_month[e] = NewIntVar(0, 2)` equal to the count
minus 1 makes a count of 4 infeasible (and the count is taken over all
`number_of_weeks` weeks, not per rolling window). -/
theorem spec_c9_counterexample :
    FeasibleCore instC9 workC9 ∧ weekendWeeks instC9 workC9 0 = 4
      ∧ ¬Feasible instC9 workC9 := by
  refine ⟨instC9_core, instC9_weekends, fun hf => ?_⟩
  have h := (hf.weekends_in_month 0 (by decide)).2
  rw [instC9_weekends] at h
  omega

/-- C9 as amended: in every feasible solution, for every real employee the
number of weeks of the whole horizon in which the employee works a weekend
(a non-off shift on Saturday or Sunday, or a night-classified shift on
Friday) lies between 1 and 3; in particular a fourth worked weekend is
infeasible rather than penalized (brain2.py lines 670-675 via
lines 642-654). -/
theorem spec_c9_weekend_bounds (inst : SchedInstance) (work : ℕ → ℕ → ℕ → Bool)
    (hf : Feasible inst work) :
    ∀ e, e < inst.num_employees →
      1 ≤ weekendWeeks inst work e ∧ weekendWeeks inst work e ≤ 3 := by
  intro e he
  have h := hf.weekends_in_month e he
  omega

/-- Witness for the amended C9 at `(instWit, workWit)`, employee 0 (who
works two weekends). -/
theorem spec_c9_weekend_bounds_witness :
    Feasible instWit workWit ∧
      (1 ≤ weekendWeeks instWit workWit 0 ∧ weekendWeeks instWit workWit 0 ≤ 3) :=
  ⟨instWit_feasible, spec_c9_weekend_bounds instWit workWit instWit_feasible 0 (by decide)⟩

/-- C8: under the hard bounds of `add_soft_sum_constraint` with parameters
`hardMin = 2, softMin = 4, minCost = 3, softMax = 6, hardMax = 8,
maxCost = 2`, the objective contribution of the returned excess variables
equals `minCost * max(0, softMin - sum) + maxCost * max(0, sum - softMax)`;
in particular it is 3 when the sum is 3, 0 when the sum is 5, and 2 when
the sum is 7 (brain2.py lines 185-239). -/
theorem spec_c8_soft_sum (works : List Bool)
    (_hfeas : add_soft_sum_feasible works 2 4 3 6 8 2) :
    add_soft_sum_contribution works 2 4 3 6 8 2
        = 3 * max (4 - (countTrue works : ℤ)) 0 + 2 * max ((countTrue works : ℤ) - 6) 0
      ∧ (countTrue works = 3 → add_soft_sum_contribution works 2 4 3 6 8 2 = 3)
      ∧ (countTrue works = 5 → add_soft_sum_contribution works 2 4 3 6 8 2 = 0)
      ∧ (countTrue works = 7 → add_soft_sum_contribution works 2 4 3 6 8 2 = 2) := by
  have hform : add_soft_sum_contribution works 2 4 3 6 8 2
      = 3 * max (4 - (countTrue works : ℤ)) 0 + 2 * max ((countTrue works : ℤ) - 6) 0 := by
    unfold add_soft_sum_contribution
    norm_num
  refine ⟨hform, fun h => ?_, fun h => ?_, fun h => ?_⟩ <;> rw [hform, h] <;> norm_num

/-- Witness for C8: five variables, three of them true (sum 3), yielding
contribution 3. -/
theorem spec_c8_soft_sum_witness :
    add_soft_sum_feasible [true, true, true, false, false] 2 4 3 6 8 2
      ∧ add_soft_sum_contribution [true, true, true, false, false] 2 4 3 6 8 2 = 3 :=
  ⟨⟨by decide, by decide, by decide⟩,
    (spec_c8_soft_sum [true, true, true, false, false] ⟨by decide, by decide, by decide⟩).2.1
      (by decide)⟩

/-- Symmetry of the branch structure of `test_overlap` in the two converted
windows. -/
theorem overlapM_symm (a b c d : ℤ) : overlapM a b c d = overlapM c d a b := by
  unfold overlapM
  by_cases h1 : b < a
  · by_cases h2 : d < c
    · simp [h1, h2]
    · simp [h1, h2]
  · by_cases h2 : d < c
    · simp [h1, h2]
    · by_cases h3 : a ≥ d ∨ c ≥ b
      · have h4 : c ≥ b ∨ a ≥ d := h3.symm
        simp [h1, h2, h3, h4]
      · have h4 : ¬(c ≥ b ∨ a ≥ d) := fun h => h3 h.symm
        simp [h1, h2, h3, h4]

/-- C10: `test_overlap` is symmetric in its two time windows, for all
`'HH:MM'` strings (indeed for all strings), wrapping windows included
(brain2.py lines 36-64). -/
theorem spec_c10_test_overlap_symm (t1_st t1_end t2_st t2_end : String) :
    test_overlap t1_st t1_end t2_st t2_end = test_overlap t2_st t2_end t1_st t1_end := by
  unfold test_overlap
  exact overlapM_symm _ _ _ _

/-- The span clause produced by `negated_bounded_span` is satisfied iff the
left border is true, some interior variable is false, or the right border is
true. -/
theorem boolOr_span (works : List Bool) (start length : ℕ) :
    boolOr (negated_bounded_span works start length) ↔
      (0 < start ∧ works.getD (start - 1) false = true)
        ∨ (∃ i, i < length ∧ works.getD (start + i) false = false)
        ∨ (start + length < works.length ∧ works.getD (start + length) false = true) := by
  unfold boolOr negated_bounded_span
  by_cases h1 : 0 < start <;> by_cases h2 : start + length < works.length <;>
    simp [h1, h2, List.any_eq_true, List.mem_range, Bool.not_eq_true']

/-- The all-interior-negated clause of the long-run block is satisfied iff
some variable of the window is false. -/
theorem boolOr_window (works : List Bool) (start n : ℕ) :
    boolOr ((List.range n).map (fun i => !(works.getD (start + i) false))) ↔
      ∃ i, i < n ∧ works.getD (start + i) false = false := by
  unfold boolOr
  simp [List.any_eq_true, List.mem_range, Bool.not_eq_true']

/-- Every all-true segment `[a, b]` of `works` extends to a maximal run. -/
theorem exists_run_containing (works : List Bool) (a b : ℕ) (hab : a ≤ b)
    (hb : b < works.length)
    (hall : ∀ i, a ≤ i → i ≤ b → works.getD i false = true) :
    ∃ start len, maximalRun works start len ∧ start ≤ a ∧ b < start + len := by
  classical
  have hexS : ∃ s, s ≤ a ∧ ∀ i, s ≤ i → i ≤ a → works.getD i false = true :=
    ⟨a, le_refl a, fun i hi hia => hall i hi (hia.trans hab)⟩
  set start := Nat.find hexS with hstart
  have hPstart := Nat.find_spec hexS
  have hleft : start = 0 ∨ works.getD (start - 1) false = false := by
    rcases Nat.eq_zero_or_pos start with h0 | hpos
    · exact Or.inl h0
    · right
      have hnot : ¬(start - 1 ≤ a ∧ ∀ i, start - 1 ≤ i → i ≤ a →
          works.getD i false = true) := Nat.find_min hexS (by omega)
      have hsa : start - 1 ≤ a := by have := hPstart.1; omega
      by_contra hne
      have htrue : works.getD (start - 1) false = true := by
        cases hgd : works.getD (start - 1) false
        · exact absurd hgd hne
        · rfl
      exact hnot ⟨hsa, fun i hi hia => by
        rcases Nat.eq_or_lt_of_le hi with heq | hlt
        · rw [← heq]; exact htrue
        · exact hPstart.2 i (by omega) hia⟩
  have hQb : b < works.length ∧ ∀ i, b ≤ i → i ≤ b →
      works.getD i false = true :=
    ⟨hb, fun i hbi hib => hall i (hab.trans hbi) hib⟩
  set en := Nat.findGreatest
    (fun t => t < works.length ∧ ∀ i, b ≤ i → i ≤ t → works.getD i false = true)
    (works.length - 1) with hen
  have hble : b ≤ works.length - 1 := by omega
  have hben : b ≤ en := Nat.le_findGreatest hble hQb
  have hQen : en < works.length ∧ ∀ i, b ≤ i → i ≤ en →
      works.getD i false = true := by
    rw [hen]
    exact Nat.findGreatest_spec
      (P := fun t => t < works.length ∧ ∀ i, b ≤ i → i ≤ t →
        works.getD i false = true)
      (n := works.length - 1) hble hQb
  have hright : en + 1 = works.length ∨ works.getD (en + 1) false = false := by
    rcases Nat.lt_or_ge (en + 1) works.length with hlt | hge
    · right
      have hnot : ¬((en + 1) < works.length ∧ ∀ i, b ≤ i → i ≤ en + 1 →
          works.getD i false = true) :=
        Nat.findGreatest_is_greatest
          (P := fun t => t < works.length ∧ ∀ i, b ≤ i → i ≤ t →
            works.getD i false = true)
          (n := works.length - 1) (k := en + 1)
          (by rw [← hen]; omega) (by omega)
      by_contra hne
      have htrue : works.getD (en + 1) false = true := by
        cases hgd : works.getD (en + 1) false
        · exact absurd hgd hne
        · rfl
      exact hnot ⟨hlt, fun i hbi hile => by
        rcases Nat.eq_or_lt_of_le hile with heq | hlt2
        · rw [heq]; exact htrue
        · exact hQen.2 i hbi (by omega)⟩
    · left
      have := hQen.1
      omega
  have hsa : start ≤ a := hPstart.1
  refine ⟨start, en + 1 - start, ⟨by omega, by have := hQen.1; omega, ?_, hleft, ?_⟩,
    hsa, by omega⟩
  · intro i hsi hilt
    rcases le_or_lt i a with hia | hia
    · exact hPstart.2 i hsi hia
    · rcases le_or_lt i b with hib | hib
      · exact hall i (by omega) hib
      · exact hQen.2 i (by omega) (by omega)
  · have heq : start + (en + 1 - start) = en + 1 := by omega
    rw [heq]
    exact hright

/-- C7: the hard clauses of `add_soft_sequence_constraint` with
`hard_min = hard_max = k` (and `min_cost = max_cost = 0`, under which the
code emits nothing else) hold at an assignment iff every maximal contiguous
run of true values has length exactly `k`: every run of a different length
is forbidden and every assignment whose maximal runs all have length `k` is
permitted (brain2.py lines 85-111 and 114-182). -/
theorem spec_c7_sequence_exact (works : List Bool) (k : ℕ) :
    add_soft_sequence_hard_ok works k k ↔
      ∀ start len, maximalRun works start len → len = k := by
  constructor
  · rintro ⟨hshort, hlong⟩ start len hrun
    obtain ⟨hlen, hle, hall, hleftb, hrightb⟩ := hrun
    by_contra hne
    rcases Nat.lt_or_ge len k with hlt | hge
    · have hcl := hshort len hlen hlt start hle
      rw [boolOr_span] at hcl
      rcases hcl with ⟨hpos, htrue⟩ | ⟨i, hi, hfalse⟩ | ⟨hlt2, htrue⟩
      · rcases hleftb with h0 | hf
        · omega
        · rw [hf] at htrue
          exact Bool.false_ne_true htrue
      · have hti := hall (start + i) (by omega) (by omega)
        rw [hti] at hfalse
        exact Bool.false_ne_true hfalse.symm
      · rcases hrightb with heq | hf
        · omega
        · rw [hf] at htrue
          exact Bool.false_ne_true htrue
    · have hklt : k < len := by omega
      have hstart : start < works.length - k := by omega
      have hcl := hlong start hstart
      rw [boolOr_window] at hcl
      obtain ⟨i, hik, hfalse⟩ := hcl
      have hti := hall (start + i) (by omega) (by omega)
      rw [hti] at hfalse
      exact Bool.false_ne_true hfalse.symm
  · intro h
    constructor
    · intro length h1 hlt start hrange
      rw [boolOr_span]
      by_contra hno
      push_neg at hno
      obtain ⟨hleftn, hmidn, hrightn⟩ := hno
      have hrun : maximalRun works start length := by
        refine ⟨h1, hrange, ?_, ?_, ?_⟩
        · intro i hsi hilt
          have hne := hmidn (i - start) (by omega)
          have heqi : start + (i - start) = i := by omega
          rw [heqi] at hne
          cases hgd : works.getD i false
          · exact absurd hgd hne
          · rfl
        · rcases Nat.eq_zero_or_pos start with h0 | hpos
          · exact Or.inl h0
          · right
            have hne := hleftn hpos
            cases hgd : works.getD (start - 1) false
            · rfl
            · exact absurd hgd hne
        · rcases Nat.lt_or_ge (start + length) works.length with hlt2 | hge
          · right
            have hne := hrightn hlt2
            cases hgd : works.getD (start + length) false
            · rfl
            · exact absurd hgd hne
          · left; omega
      have := h start length hrun
      omega
    · intro start hstart
      rw [boolOr_window]
      by_contra hno
      push_neg at hno
      have halltrue : ∀ i, start ≤ i → i ≤ start + k → works.getD i false = true := by
        intro i hi1 hi2
        have hne := hno (i - start) (by omega)
        have heqi : start + (i - start) = i := by omega
        rw [heqi] at hne
        cases hgd : works.getD i false
        · exact absurd hgd hne
        · rfl
      obtain ⟨s0, l0, hrun, hs0, hcover⟩ :=
        exists_run_containing works start (start + k) (by omega) (by omega) halltrue
      have hlk := h s0 l0 hrun
      omega
